import Mathlib

/-!
Shallow embedding of the calculation core of `app.py` (PropertyRentCalc):
`monthly_mortgage_payment`, `required_rent`, `net_annual_cash_flow_year`
and `compute_annual_roi_list`.

Numbers are modelled by `ℚ` (the code computes with Python floats over
real-valued formulas; the claims are stated up to floating-point
tolerance, i.e. about the exact real arithmetic).  Python raises
`ZeroDivisionError` on division by zero, so every division whose
denominator can vanish is guarded: a function that can raise returns
`Option ℚ`, with `none` standing for the raised exception.
-/

namespace PropertyRentCalc

/-- Embedding of `monthly_mortgage_payment` (app.py lines 9-22).
`loan_amount = (1 - down_payment_pct) * property_value`,
`monthly_interest_rate = annual_interest_rate / 12`, `n = years * 12`,
result `loan_amount * r * (1+r)^n / ((1+r)^n - 1)`.  There is no
zero-rate branch in the source: when the denominator `(1+r)^n - 1`
is zero Python raises `ZeroDivisionError`, modelled here by `none`. -/
def monthly_mortgage_payment (property_value down_payment_pct annual_interest_rate : ℚ)
    (years : ℤ) : Option ℚ :=
  let loan_amount : ℚ := (1 - down_payment_pct) * property_value
  let monthly_interest_rate : ℚ := annual_interest_rate / 12
  let n : ℤ := years * 12
  if (1 + monthly_interest_rate) ^ n - 1 = 0 then none
  else some (loan_amount * monthly_interest_rate * (1 + monthly_interest_rate) ^ n /
    ((1 + monthly_interest_rate) ^ n - 1))

/-- Embedding of `required_rent` (app.py lines 24-44).
`fixed_annual_expenses = tax + insurance + 12*mortgage + 12*hoa`,
`denom = 12 * (1 - vacancy_capex_rate)`, result `fixed / denom`.
`none` models a `ZeroDivisionError` raised either inside
`monthly_mortgage_payment` or by the final division when `denom = 0`. -/
def required_rent (property_value down_payment_pct annual_interest_rate : ℚ) (years : ℤ)
    (tax_rate_pct annual_insurance vacancy_capex_rate monthly_hoa : ℚ) : Option ℚ :=
  match monthly_mortgage_payment property_value down_payment_pct annual_interest_rate years with
  | none => none
  | some mp =>
    let annual_tax : ℚ := tax_rate_pct * property_value
    let annual_mortgage : ℚ := 12 * mp
    let annual_hoa : ℚ := 12 * monthly_hoa
    let fixed_annual_expenses : ℚ := annual_tax + annual_insurance + annual_mortgage + annual_hoa
    let denom : ℚ := 12 * (1 - vacancy_capex_rate)
    if denom = 0 then none
    else some (fixed_annual_expenses / denom)

/-- Embedding of `net_annual_cash_flow_year` (app.py lines 50-103).
Pure arithmetic, no division: always defined. -/
def net_annual_cash_flow_year (year_index : ℤ)
    (base_property_value base_rent tax_rate_pct annual_insurance monthly_mortgage
     monthly_hoa vacancy_capex_rate rent_growth appreciation other_costs_growth : ℚ) : ℚ :=
  let rent_factor : ℚ := (1 + rent_growth) ^ (year_index - 1)
  let prop_factor : ℚ := (1 + appreciation) ^ (year_index - 1)
  let cost_factor : ℚ := (1 + other_costs_growth) ^ (year_index - 1)
  let property_value_yr : ℚ := base_property_value * prop_factor
  let annual_rent_yr : ℚ := 12 * base_rent * rent_factor
  let annual_tax_yr : ℚ := tax_rate_pct * property_value_yr
  let annual_insurance_yr : ℚ := annual_insurance * cost_factor
  let annual_hoa_yr : ℚ := monthly_hoa * 12 * cost_factor
  let annual_mortgage_yr : ℚ := monthly_mortgage * 12
  let vacancy_capex_yr : ℚ := vacancy_capex_rate * annual_rent_yr
  let total_annual_expenses : ℚ :=
    annual_tax_yr + annual_insurance_yr + annual_mortgage_yr + annual_hoa_yr + vacancy_capex_yr
  annual_rent_yr - total_annual_expenses

/-- Embedding of `compute_annual_roi_list` (app.py lines 105-152).
Returns the list of `(year_index, net_annual_cash_flow, ROI%)` for
years `1..num_years`; `none` models the `ZeroDivisionError` raised by
the single `monthly_mortgage_payment` call.  The ROI division is
guarded in the source (`if initial_investment != 0 else 0`). -/
def compute_annual_roi_list (num_years : ℕ)
    (base_property_value base_rent down_payment_pct annual_interest_rate : ℚ) (years : ℤ)
    (tax_rate_pct annual_insurance monthly_hoa vacancy_capex_rate
     rent_growth appreciation other_costs_growth closing_costs : ℚ) :
    Option (List (ℤ × ℚ × ℚ)) :=
  match monthly_mortgage_payment base_property_value down_payment_pct annual_interest_rate years with
  | none => none
  | some monthly_mort =>
    let down_payment : ℚ := down_payment_pct * base_property_value
    let initial_investment : ℚ := down_payment + closing_costs
    some ((List.range num_years).map (fun k : ℕ =>
      let i : ℤ := (k : ℤ) + 1
      let net_cf_yr_i : ℚ := net_annual_cash_flow_year i base_property_value base_rent
        tax_rate_pct annual_insurance monthly_mort monthly_hoa vacancy_capex_rate
        rent_growth appreciation other_costs_growth
      let roi_i : ℚ := if initial_investment ≠ 0 then net_cf_yr_i / initial_investment * 100 else 0
      (i, net_cf_yr_i, roi_i)))


/-- The annuity payment factor `m (1+m)^N / ((1+m)^N - 1)` for monthly rate `m`
and `N` payments; `monthly_mortgage_payment` returns the loan amount times this. -/
def annuity_factor (m : ℚ) (N : ℕ) : ℚ := m * (1 + m) ^ N / ((1 + m) ^ N - 1)

lemma annuity_denom_pos {m : ℚ} (hm : 0 < m) {N : ℕ} (hN : N ≠ 0) :
    0 < (1 + m) ^ N - 1 := by
  have h1 : 1 < 1 + m := by linarith
  have := one_lt_pow₀ h1 hN
  linarith

lemma annuity_factor_pos {m : ℚ} (hm : 0 < m) {N : ℕ} (hN : N ≠ 0) :
    0 < annuity_factor m N := by
  have h1 : (1 : ℚ) < 1 + m := by linarith
  have hp : (0 : ℚ) < (1 + m) ^ N := by positivity
  exact div_pos (by nlinarith) (annuity_denom_pos hm hN)

lemma monthly_mortgage_payment_eq {pv d r : ℚ} {t : ℤ} (hr : 0 < r) (ht : 0 < t) :
    monthly_mortgage_payment pv d r t
      = some ((1 - d) * pv * annuity_factor (r / 12) (t * 12).toNat) := by
  have hm : (0 : ℚ) < r / 12 := by positivity
  have htn : ((t * 12).toNat : ℤ) = t * 12 := Int.toNat_of_nonneg (by positivity)
  have hN : (t * 12).toNat ≠ 0 := by omega
  have hz : (1 + r / 12) ^ (t * 12) = (1 + r / 12) ^ ((t * 12).toNat) := by
    conv_lhs => rw [← htn]
    rw [zpow_natCast]
  have hden := annuity_denom_pos hm hN
  simp only [monthly_mortgage_payment, hz]
  rw [if_neg (by linarith)]
  refine congrArg some ?_
  rw [annuity_factor]
  ring


lemma required_rent_eq {pv d r : ℚ} {t : ℤ} {tax ins v hoa : ℚ} (hr : 0 < r) (ht : 0 < t)
    (hv : v ≠ 1) :
    required_rent pv d r t tax ins v hoa
      = some ((tax * pv + ins
          + 12 * ((1 - d) * pv * annuity_factor (r / 12) (t * 12).toNat)
          + 12 * hoa) / (12 * (1 - v))) := by
  have hden : (12 : ℚ) * (1 - v) ≠ 0 := by
    intro h
    apply hv
    have : (1 : ℚ) - v = 0 := by linarith [mul_eq_zero.mp h]
    linarith
  simp only [required_rent, monthly_mortgage_payment_eq hr ht]
  rw [if_neg hden]

lemma sum_inv_pow_eq {m : ℚ} (hm : 0 < m) (N : ℕ) :
    (∑ k ∈ Finset.range N, ((1 + m)⁻¹) ^ (k + 1)) = ((1 + m) ^ N - 1) / (m * (1 + m) ^ N) := by
  have ha0 : (1 : ℚ) + m ≠ 0 := by linarith
  have hx1 : ((1 : ℚ) + m)⁻¹ ≠ 1 := by
    intro h
    have : (1 : ℚ) + m = 1 := by
      have := congrArg (fun x : ℚ => x⁻¹) h
      simpa [inv_inv] using this
    linarith
  have hpow : ((1 : ℚ) + m) ^ N ≠ 0 := pow_ne_zero _ ha0
  have hsum : (∑ k ∈ Finset.range N, ((1 + m)⁻¹) ^ k)
      = (((1 + m)⁻¹) ^ N - 1) / ((1 + m)⁻¹ - 1) := geom_sum_eq hx1 N
  have hstep : (∑ k ∈ Finset.range N, ((1 + m)⁻¹) ^ (k + 1))
      = (∑ k ∈ Finset.range N, ((1 + m)⁻¹) ^ k) * (1 + m)⁻¹ := by
    rw [Finset.sum_mul]
    exact Finset.sum_congr rfl (fun k _ => by rw [pow_succ])
  rw [hstep, hsum, inv_pow]
  field_simp
  ring

lemma annuity_factor_inv_sum {m : ℚ} (hm : 0 < m) {N : ℕ} (hN : N ≠ 0) :
    annuity_factor m N = (∑ k ∈ Finset.range N, ((1 + m)⁻¹) ^ (k + 1))⁻¹ := by
  rw [sum_inv_pow_eq hm N, annuity_factor]
  have h1 : (0 : ℚ) < (1 + m) ^ N - 1 := annuity_denom_pos hm hN
  have h2 : (0 : ℚ) < (1 + m) ^ N := by positivity
  rw [inv_div]

lemma annuity_factor_mono {m₁ m₂ : ℚ} (h1 : 0 < m₁) (h12 : m₁ ≤ m₂) {N : ℕ} (hN : N ≠ 0) :
    annuity_factor m₁ N ≤ annuity_factor m₂ N := by
  have h2 : 0 < m₂ := lt_of_lt_of_le h1 h12
  rw [annuity_factor_inv_sum h1 hN, annuity_factor_inv_sum h2 hN]
  have hS2 : (0 : ℚ) < ∑ k ∈ Finset.range N, ((1 + m₂)⁻¹) ^ (k + 1) := by
    refine Finset.sum_pos (fun k _ => by positivity) ?_
    exact Finset.nonempty_range_iff.mpr hN
  refine inv_anti₀ hS2 (Finset.sum_le_sum fun k _ => ?_)
  have hb : ((1 : ℚ) + m₂)⁻¹ ≤ ((1 : ℚ) + m₁)⁻¹ :=
    inv_anti₀ (by linarith) (by linarith)
  exact pow_le_pow_left₀ (by positivity) hb _


/-- C1: the spec requires an explicit zero-rate branch returning `loanAmount / n`,
but `monthly_mortgage_payment` has none: with `annual_interest_rate = 0` the
annuity denominator `(1+0)^n - 1` is zero and the call raises `ZeroDivisionError`
(modelled as `none`) for every input, instead of returning `loanAmount / n`
(here `96000 / 120 = 800`). -/
theorem claim1_zero_rate_raises :
    monthly_mortgage_payment 120000 (1/5) 0 10 = none ∧
    ∀ (pv d : ℚ) (t : ℤ), monthly_mortgage_payment pv d 0 t = none := by
  constructor
  · norm_num [monthly_mortgage_payment]
  · intro pv d t
    simp [monthly_mortgage_payment]

/-- C4: whenever the mortgage payment itself is defined, `required_rent` with
`vacancy_capex_rate = 1` raises `ZeroDivisionError` (denominator `12*(1-1) = 0`),
modelled as `none`, rather than returning any numeric value. -/
theorem claim4_vacancy_one_raises (pv d r : ℚ) (t : ℤ) (tax ins hoa mp : ℚ)
    (hmp : monthly_mortgage_payment pv d r t = some mp) :
    required_rent pv d r t tax ins 1 hoa = none := by
  simp [required_rent, hmp]

theorem claim4_witness : required_rent 0 0 12 1 0 12 1 0 = none :=
  claim4_vacancy_one_raises 0 0 12 1 0 12 0 0 (by norm_num [monthly_mortgage_payment])

/-- C8: the spec states `downPaymentFraction = 1` gives payment `0` for every
rate ≥ 0; the code does return `some 0` for every positive rate and term, but at
rate exactly `0` the missing zero-rate branch makes it raise `ZeroDivisionError`
(`none`) instead of returning `0`. -/
theorem claim8_full_down_payment :
    monthly_mortgage_payment 480000 1 0 30 = none ∧
    ∀ (pv r : ℚ) (t : ℤ), 0 < r → 0 < t → monthly_mortgage_payment pv 1 r t = some 0 := by
  constructor
  · norm_num [monthly_mortgage_payment]
  · intro pv r t hr ht
    rw [monthly_mortgage_payment_eq hr ht]
    norm_num

theorem claim8_witness : monthly_mortgage_payment 480000 1 12 1 = some 0 :=
  claim8_full_down_payment.2 480000 12 1 (by norm_num) (by norm_num)

/-- C9 counterexample: with `termYears = -1 ≤ 0` (and the spec's example rate
scaled up so the arithmetic stays small) `monthly_mortgage_payment` returns a
numeric result, so no `InvalidInput` error is raised for non-positive terms. -/
theorem claim9_counterexample :
    (monthly_mortgage_payment 480000 (1/5) (6/5) (-1)).isSome = true := by
  norm_num [monthly_mortgage_payment]

/-- C9 amended: `monthly_mortgage_payment` performs no term validation. With
`termYears = 0` the annuity denominator `(1+r/12)^0 - 1 = 0` makes it raise
`ZeroDivisionError` (`none`, not `InvalidInput`), and with a negative term and a
positive rate it silently returns a numeric result. -/
theorem claim9_no_term_validation :
    (∀ (pv d r : ℚ), monthly_mortgage_payment pv d r 0 = none) ∧
    monthly_mortgage_payment 480000 (1/5) (6/5) (-1) ≠ none := by
  constructor
  · intro pv d r
    simp [monthly_mortgage_payment]
  · norm_num [monthly_mortgage_payment]
    intro h
    exact Option.noConfusion h


/-- C2: for a positive rate and term and `vacancy_capex_rate` in `[0,1)`,
`required_rent` returns exactly
`(tax*pv + insurance + 12*monthlyPayment + 12*hoa) / (12*(1 - vacancyCapexRate))`,
where `monthlyPayment` is the result of `monthly_mortgage_payment` on the same
loan terms. -/
theorem claim2_required_rent_formula (pv d r : ℚ) (t : ℤ) (tax ins v hoa mp : ℚ)
    (hr : 0 < r) (ht : 0 < t) (hv0 : 0 ≤ v) (hv1 : v < 1)
    (hmp : monthly_mortgage_payment pv d r t = some mp) :
    required_rent pv d r t tax ins v hoa
      = some ((tax * pv + ins + 12 * mp + 12 * hoa) / (12 * (1 - v))) := by
  have hmp' := @monthly_mortgage_payment_eq pv d r t hr ht
  rw [hmp'] at hmp
  have : mp = (1 - d) * pv * annuity_factor (r / 12) (t * 12).toNat :=
    (Option.some.injEq _ _ ▸ hmp).symm
  rw [required_rent_eq hr ht (by linarith), this]

theorem claim2_witness :
    required_rent 0 0 12 1 0 12 0 0
      = some ((0 * 0 + 12 + 12 * 0 + 12 * 0) / (12 * (1 - 0))) :=
  claim2_required_rent_formula 0 0 12 1 0 12 0 0 0 (by norm_num) (by norm_num)
    (by norm_num) (by norm_num) (by norm_num [monthly_mortgage_payment])

/-- C6: running Year 1 of the projection with `base_rent` equal to the
break-even rent from `required_rent` (same loan terms, same operating
assumptions, all growth rates 0) gives a net cash flow of exactly 0. -/
theorem claim6_round_trip (pv d r : ℚ) (t : ℤ) (tax ins v hoa mp rent : ℚ)
    (hmp : monthly_mortgage_payment pv d r t = some mp)
    (hrent : required_rent pv d r t tax ins v hoa = some rent) :
    net_annual_cash_flow_year 1 pv rent tax ins mp hoa v 0 0 0 = 0 := by
  rw [required_rent] at hrent
  rw [hmp] at hrent
  by_cases hden : (12 : ℚ) * (1 - v) = 0
  · simp only [hden] at hrent
    simp at hrent
  · simp only [if_neg hden] at hrent
    have hr : rent = (tax * pv + ins + 12 * mp + 12 * hoa) / (12 * (1 - v)) :=
      ((Option.some.injEq _ _).mp hrent).symm
    simp only [net_annual_cash_flow_year, hr]
    norm_num
    field_simp
    ring

theorem claim6_witness :
    net_annual_cash_flow_year 1 0 1 0 12 0 0 0 0 0 0 = 0 :=
  claim6_round_trip 0 0 12 1 0 12 0 0 0 1
    (by norm_num [monthly_mortgage_payment])
    (by norm_num [required_rent, monthly_mortgage_payment])

/-- C10: with `vacancy_capex_rate > 1` and strictly positive annual fixed
costs, `required_rent` does not raise: the denominator `12*(1-v)` is negative,
so it returns a strictly negative rent; and for any `v' ≠ 1` (payment defined)
it returns some numeric value — only `v = 1` exactly raises. -/
theorem claim10_vacancy_above_one (pv d r : ℚ) (t : ℤ) (tax ins v hoa mp : ℚ)
    (hmp : monthly_mortgage_payment pv d r t = some mp)
    (hv : 1 < v) (hpos : 0 < tax * pv + ins + 12 * mp + 12 * hoa) :
    (∃ q, required_rent pv d r t tax ins v hoa = some q ∧ q < 0) ∧
    ∀ v' : ℚ, v' ≠ 1 → (required_rent pv d r t tax ins v' hoa).isSome = true := by
  constructor
  · have hden : (12 : ℚ) * (1 - v) < 0 := by nlinarith
    refine ⟨(tax * pv + ins + 12 * mp + 12 * hoa) / (12 * (1 - v)), ?_, ?_⟩
    · simp only [required_rent, hmp]
      rw [if_neg (ne_of_lt hden)]
    · exact div_neg_of_pos_of_neg hpos hden
  · intro v' hv'
    have hden : (12 : ℚ) * (1 - v') ≠ 0 := by
      intro h
      apply hv'
      have h2 : (1 : ℚ) - v' = 0 := by linarith [mul_eq_zero.mp h]
      linarith
    simp only [required_rent, hmp]
    rw [if_neg hden]
    rfl

theorem claim10_witness : (required_rent 0 0 12 1 0 12 2 0).isSome = true :=
  (claim10_vacancy_above_one 0 0 12 1 0 12 2 0 0
    (by norm_num [monthly_mortgage_payment]) (by norm_num) (by norm_num)).2 2 (by norm_num)


/-- C3: every entry `(i, cf, roi)` of the projection list has `i ≥ 1` and a net
cash flow equal to `12*baseRent*(1+rentGrowth)^(i-1)` minus the sum of the five
expense terms, with the mortgage term `12*mp` computed once from the original
Year-1 loan terms (the `mp` returned by `monthly_mortgage_payment`). -/
theorem claim3_net_cash_flow_formula (N : ℕ) (pv rent d r : ℚ) (t : ℤ)
    (tax ins hoa v rg ap og cc mp : ℚ) (l : List (ℤ × ℚ × ℚ)) (i : ℤ) (cf roi : ℚ)
    (hmp : monthly_mortgage_payment pv d r t = some mp)
    (hl : compute_annual_roi_list N pv rent d r t tax ins hoa v rg ap og cc = some l)
    (hmem : (i, cf, roi) ∈ l) :
    1 ≤ i ∧
    cf = 12 * rent * (1 + rg) ^ (i - 1)
      - (tax * (pv * (1 + ap) ^ (i - 1)) + ins * (1 + og) ^ (i - 1)
         + 12 * hoa * (1 + og) ^ (i - 1) + 12 * mp
         + v * (12 * rent * (1 + rg) ^ (i - 1))) := by
  simp only [compute_annual_roi_list, hmp, Option.some.injEq] at hl
  subst hl
  rw [List.mem_map] at hmem
  obtain ⟨k, hk, hek⟩ := hmem
  have hi : ((k : ℤ) + 1) = i := congrArg Prod.fst hek
  have hcf : net_annual_cash_flow_year ((k : ℤ) + 1) pv rent tax ins mp hoa v rg ap og = cf :=
    congrArg (fun p => p.2.1) hek
  subst hi
  refine ⟨by omega, ?_⟩
  rw [← hcf]
  simp only [net_annual_cash_flow_year, add_sub_cancel_right]
  ring


theorem claim3_witness :
    1 ≤ (1 : ℤ) ∧
    (12 : ℚ) = 12 * 1 * (1 + 0) ^ ((1 : ℤ) - 1)
      - (0 * (0 * (1 + 0) ^ ((1 : ℤ) - 1)) + 0 * (1 + 0) ^ ((1 : ℤ) - 1)
         + 12 * 0 * (1 + 0) ^ ((1 : ℤ) - 1) + 12 * 0
         + 0 * (12 * 1 * (1 + 0) ^ ((1 : ℤ) - 1))) :=
  claim3_net_cash_flow_formula 1 0 1 0 12 1 0 0 0 0 0 0 0 0 0 [(1, 12, 0)] 1 12 0
    (by norm_num [monthly_mortgage_payment])
    (by norm_num [compute_annual_roi_list, net_annual_cash_flow_year,
      monthly_mortgage_payment, List.range_succ])
    (by norm_num)

/-- C5: every entry `(i, cf, roi)` of the projection list has
`roi = cf / initialInvestment * 100` when the initial investment
`down_payment_pct * base_property_value + closing_costs` is nonzero, and
`roi = 0` exactly when it is zero; the guard never raises. -/
theorem claim5_roi_guard (N : ℕ) (pv rent d r : ℚ) (t : ℤ)
    (tax ins hoa v rg ap og cc : ℚ) (l : List (ℤ × ℚ × ℚ)) (i : ℤ) (cf roi : ℚ)
    (hl : compute_annual_roi_list N pv rent d r t tax ins hoa v rg ap og cc = some l)
    (hmem : (i, cf, roi) ∈ l) :
    (d * pv + cc ≠ 0 → roi = cf / (d * pv + cc) * 100) ∧
    (d * pv + cc = 0 → roi = 0) := by
  rcases hmp : monthly_mortgage_payment pv d r t with _ | mp
  · rw [compute_annual_roi_list, hmp] at hl
    exact Option.noConfusion hl
  · simp only [compute_annual_roi_list, hmp, Option.some.injEq] at hl
    subst hl
    rw [List.mem_map] at hmem
    obtain ⟨k, hk, hek⟩ := hmem
    have hcf : net_annual_cash_flow_year ((k : ℤ) + 1) pv rent tax ins mp hoa v rg ap og = cf :=
      congrArg (fun p => p.2.1) hek
    have hroi :
        (if d * pv + cc ≠ 0
          then net_annual_cash_flow_year ((k : ℤ) + 1) pv rent tax ins mp hoa v rg ap og
            / (d * pv + cc) * 100
          else 0) = roi :=
      congrArg (fun p => p.2.2) hek
    rw [hcf] at hroi
    constructor
    · intro hne
      rw [if_pos hne] at hroi
      exact hroi.symm
    · intro hzero
      rw [if_neg (by simp [hzero])] at hroi
      exact hroi.symm

theorem claim5_witness : (1200 : ℚ) = 12 / (0 * 0 + 1) * 100 :=
  (claim5_roi_guard 1 0 1 0 12 1 0 0 0 0 0 0 0 1 [(1, 12, 1200)] 1 12 1200
    (by norm_num [compute_annual_roi_list, net_annual_cash_flow_year,
      monthly_mortgage_payment, List.range_succ])
    (by norm_num)).1 (by norm_num)


lemma required_rent_le_of_num_le {pv₁ pv₂ d₁ d₂ r₁ r₂ : ℚ} {t : ℤ}
    {tax₁ tax₂ ins₁ ins₂ v hoa₁ hoa₂ q₁ q₂ : ℚ}
    (hr₁ : 0 < r₁) (hr₂ : 0 < r₂) (ht : 0 < t) (hv : v < 1)
    (hnum : tax₁ * pv₁ + ins₁
        + 12 * ((1 - d₁) * pv₁ * annuity_factor (r₁ / 12) (t * 12).toNat) + 12 * hoa₁
      ≤ tax₂ * pv₂ + ins₂
        + 12 * ((1 - d₂) * pv₂ * annuity_factor (r₂ / 12) (t * 12).toNat) + 12 * hoa₂)
    (h₁ : required_rent pv₁ d₁ r₁ t tax₁ ins₁ v hoa₁ = some q₁)
    (h₂ : required_rent pv₂ d₂ r₂ t tax₂ ins₂ v hoa₂ = some q₂) : q₁ ≤ q₂ := by
  rw [required_rent_eq hr₁ ht (by linarith)] at h₁
  rw [required_rent_eq hr₂ ht (by linarith)] at h₂
  have e₁ := (Option.some.injEq _ _ ▸ h₁)
  have e₂ := (Option.some.injEq _ _ ▸ h₂)
  rw [← e₁, ← e₂]
  exact (div_le_div_iff_of_pos_right (by linarith)).mpr hnum

/-- C7: `required_rent` is monotonically non-decreasing separately in
`property_value`, `tax_rate_pct`, `annual_insurance`, `monthly_hoa` and
`annual_interest_rate`, holding the other parameters fixed inside their valid
domains (positive rate and term so the payment is defined, `vacancy_capex_rate
< 1`, nonnegative tax rate and property value, `down_payment_pct ≤ 1`). -/
theorem claim7_required_rent_monotone :
    (∀ (pv₁ pv₂ d r : ℚ) (t : ℤ) (tax ins v hoa q₁ q₂ : ℚ),
        0 < r → 0 < t → 0 ≤ tax → d ≤ 1 → v < 1 → pv₁ ≤ pv₂ →
        required_rent pv₁ d r t tax ins v hoa = some q₁ →
        required_rent pv₂ d r t tax ins v hoa = some q₂ → q₁ ≤ q₂) ∧
    (∀ (pv d r : ℚ) (t : ℤ) (tax₁ tax₂ ins v hoa q₁ q₂ : ℚ),
        0 < r → 0 < t → 0 ≤ pv → v < 1 → tax₁ ≤ tax₂ →
        required_rent pv d r t tax₁ ins v hoa = some q₁ →
        required_rent pv d r t tax₂ ins v hoa = some q₂ → q₁ ≤ q₂) ∧
    (∀ (pv d r : ℚ) (t : ℤ) (tax ins₁ ins₂ v hoa q₁ q₂ : ℚ),
        0 < r → 0 < t → v < 1 → ins₁ ≤ ins₂ →
        required_rent pv d r t tax ins₁ v hoa = some q₁ →
        required_rent pv d r t tax ins₂ v hoa = some q₂ → q₁ ≤ q₂) ∧
    (∀ (pv d r : ℚ) (t : ℤ) (tax ins v hoa₁ hoa₂ q₁ q₂ : ℚ),
        0 < r → 0 < t → v < 1 → hoa₁ ≤ hoa₂ →
        required_rent pv d r t tax ins v hoa₁ = some q₁ →
        required_rent pv d r t tax ins v hoa₂ = some q₂ → q₁ ≤ q₂) ∧
    (∀ (pv d r₁ r₂ : ℚ) (t : ℤ) (tax ins v hoa q₁ q₂ : ℚ),
        0 < r₁ → r₁ ≤ r₂ → 0 < t → 0 ≤ pv → d ≤ 1 → v < 1 →
        required_rent pv d r₁ t tax ins v hoa = some q₁ →
        required_rent pv d r₂ t tax ins v hoa = some q₂ → q₁ ≤ q₂) := by
  refine ⟨?_, ?_, ?_, ?_, ?_⟩
  · intro pv₁ pv₂ d r t tax ins v hoa q₁ q₂ hr ht htax hd hv hpv h₁ h₂
    have hN : (t * 12).toNat ≠ 0 := by omega
    have hA : 0 < annuity_factor (r / 12) (t * 12).toNat :=
      annuity_factor_pos (by positivity) hN
    refine required_rent_le_of_num_le hr hr ht hv ?_ h₁ h₂
    nlinarith [mul_le_mul_of_nonneg_left hpv htax,
      mul_le_mul_of_nonneg_left hpv (mul_nonneg (by linarith : (0:ℚ) ≤ 1 - d) hA.le)]
  · intro pv d r t tax₁ tax₂ ins v hoa q₁ q₂ hr ht hpv hv htax h₁ h₂
    refine required_rent_le_of_num_le hr hr ht hv ?_ h₁ h₂
    nlinarith [mul_le_mul_of_nonneg_right htax hpv]
  · intro pv d r t tax ins₁ ins₂ v hoa q₁ q₂ hr ht hv hins h₁ h₂
    exact required_rent_le_of_num_le hr hr ht hv (by linarith) h₁ h₂
  · intro pv d r t tax ins v hoa₁ hoa₂ q₁ q₂ hr ht hv hhoa h₁ h₂
    exact required_rent_le_of_num_le hr hr ht hv (by linarith) h₁ h₂
  · intro pv d r₁ r₂ t tax ins v hoa q₁ q₂ hr₁ hr hT hpv hd hv h₁ h₂
    have hr₂ : 0 < r₂ := lt_of_lt_of_le hr₁ hr
    have hN : (t * 12).toNat ≠ 0 := by omega
    have hmono : annuity_factor (r₁ / 12) (t * 12).toNat
        ≤ annuity_factor (r₂ / 12) (t * 12).toNat :=
      annuity_factor_mono (by positivity) (by linarith) hN
    refine required_rent_le_of_num_le hr₁ hr₂ hT hv ?_ h₁ h₂
    nlinarith [mul_le_mul_of_nonneg_left hmono
      (mul_nonneg (by linarith : (0:ℚ) ≤ 1 - d) hpv)]

theorem claim7_witness : (1 : ℚ) ≤ 2 :=
  claim7_required_rent_monotone.2.2.1 0 0 12 1 0 12 24 0 0 1 2
    (by norm_num) (by norm_num) (by norm_num) (by norm_num)
    (by norm_num [required_rent, monthly_mortgage_payment])
    (by norm_num [required_rent, monthly_mortgage_payment])

end PropertyRentCalc
